import Mathlib

/-!
Shallow embedding of the core dispatch layer of the `ethrpc` Ethereum
JSON-RPC client (`ethrpc/core.py`), together with proofs about the
formatters, the method registry, the per-method parameter shapers and the
request-envelope dispatcher.

Python values that flow into JSON payloads are modelled by the `Json`
inductive; Python exceptions (`ValueError`, `binascii.Error`, `NameError`)
are modelled by the `PyError` inductive and `Except PyError`.  Python
strings are Lean `String`s; helper computations work on `List Char`.
-/

/-- JSON values as produced by the client (strings, integers, booleans,
`None`, lists and dicts with string keys, in insertion order). -/
inductive Json where
  | str (s : String)
  | num (n : Int)
  | bool (b : Bool)
  | null
  | arr (xs : List Json)
  | obj (kvs : List (String × Json))

/-- `true` exactly when a `Json` value is a positional array. -/
def Json.isArr : Json → Bool
  | .arr _ => true
  | _ => false

/-- Python exceptions raised by the core module: `ValueError` (including
`binascii.Error`, its subclass) and `NameError`. -/
inductive PyError where
  | valueError (msg : String)
  | nameError (name : String)
deriving DecidableEq

-- HEX HELPERS (semantics of Python `hex`, `'{0:064x}'.format`, `binascii`)

/-- The lowercase hex digit for `n < 16`, as produced by Python's `hex`
and `%x` formatting. -/
def hexDigitChar (n : Nat) : Char :=
  match n with
  | 0 => '0' | 1 => '1' | 2 => '2' | 3 => '3'
  | 4 => '4' | 5 => '5' | 6 => '6' | 7 => '7'
  | 8 => '8' | 9 => '9' | 10 => 'a' | 11 => 'b'
  | 12 => 'c' | 13 => 'd' | 14 => 'e' | 15 => 'f'
  | _ => '*'

/-- Most-significant-first hex digits of `n`, empty for `n = 0`.
The first argument is structural fuel; `n` itself is always enough. -/
def natToHexAux : Nat → Nat → List Char
  | 0, _ => []
  | fuel + 1, n =>
    if n = 0 then []
    else natToHexAux fuel (n / 16) ++ [hexDigitChar (n % 16)]

/-- Hex digit string of `n`, lowercase, no leading zeros, `"0"` for zero:
the digits Python's `hex` places after `0x`. -/
def natToHexList (n : Nat) : List Char :=
  if n = 0 then ['0'] else natToHexAux n n

/-- Numeric value of one hex character (upper- or lowercase), as accepted
by `binascii.unhexlify`. -/
def hexVal? (c : Char) : Option Nat :=
  match c with
  | '0' => .some 0 | '1' => .some 1 | '2' => .some 2 | '3' => .some 3
  | '4' => .some 4 | '5' => .some 5 | '6' => .some 6 | '7' => .some 7
  | '8' => .some 8 | '9' => .some 9
  | 'a' => .some 10 | 'b' => .some 11 | 'c' => .some 12 | 'd' => .some 13
  | 'e' => .some 14 | 'f' => .some 15
  | 'A' => .some 10 | 'B' => .some 11 | 'C' => .some 12 | 'D' => .some 13
  | 'E' => .some 14 | 'F' => .some 15
  | _ => .none

/-- `true` when `binascii.unhexlify` accepts the character. -/
def isHexChar (c : Char) : Bool := (hexVal? c).isSome

/-- Big-endian accumulation of hex digits; `none` on a non-hex character. -/
def parseHexAux : Nat → List Char → Option Nat
  | acc, [] => some acc
  | acc, c :: cs =>
    match hexVal? c with
    | some d => parseHexAux (16 * acc + d) cs
    | none => none

/-- Parse a `0x`-prefixed hex string back to the quantity it denotes. -/
def parse_quantity (s : String) : Option Nat :=
  match s.toList with
  | '0' :: 'x' :: (c :: cs) => parseHexAux 0 (c :: cs)
  | _ => none

-- FORMATTERS (ethrpc/core.py, lines 54-166)

/-- `remove_hex_prefix` (core.py line 54): strip a leading `0x`, if present. -/
def remove_hex_prefix (string : String) : String :=
  match string.toList with
  | '0' :: 'x' :: rest => rest.asString
  | _ => string

/-- `format_quantity` (core.py line 62): Python's builtin `hex` — for
`n ≥ 0` the string `0x` + lowercase hex digits with no leading zeros
(`0x0` for zero), and for `n < 0` the string `-0x` + hex digits of `|n|`. -/
def format_quantity (quantity : Int) : String :=
  if quantity < 0 then "-0x" ++ (natToHexList quantity.natAbs).asString
  else "0x" ++ (natToHexList quantity.natAbs).asString

/-- `format_hashrate` (core.py line 68): `"0x{0:064x}".format`. -/
def format_hashrate (hash_rate : Nat) : String :=
  "0x" ++ (List.replicate (64 - (natToHexList hash_rate).length) '0'
            ++ natToHexList hash_rate).asString

/-- A block argument: a Python `int` or a string tag / hash. -/
inductive BlockArg where
  | int (n : Int)
  | str (s : String)

/-- `format_block` (core.py line 74): integers become quantities, anything
else passes through unchanged. -/
def format_block : BlockArg → String
  | .int n => format_quantity n
  | .str s => s

/-- `format_filter` (core.py line 83): object holding only the provided
fields, `fromBlock`/`toBlock` through `format_block`. -/
def format_filter (from_block to_block : Option BlockArg)
    (address : Option Json) (topics : Option (List Json)) : Json :=
  .obj ((match from_block with
         | some b => [("fromBlock", Json.str (format_block b))]
         | none => [])
     ++ (match to_block with
         | some b => [("toBlock", Json.str (format_block b))]
         | none => [])
     ++ (match address with
         | some a => [("address", a)]
         | none => [])
     ++ (match topics with
         | some t => [("topics", Json.arr t)]
         | none => []))

/-- `format_transaction` (core.py line 99): object holding only the
provided fields; `gas`, `gasPrice`, `value`, `nonce` through
`format_quantity`. -/
def format_transaction (from_ «to» : Option String)
    (gas gas_price value : Option Int) (data : Option String)
    (nonce : Option Int := none) (condition : Option Json := none) : Json :=
  .obj ((match from_ with
         | some f => [("from", Json.str f)]
         | none => [])
     ++ (match «to» with
         | some t => [("to", Json.str t)]
         | none => [])
     ++ (match gas with
         | some g => [("gas", Json.str (format_quantity g))]
         | none => [])
     ++ (match gas_price with
         | some g => [("gasPrice", Json.str (format_quantity g))]
         | none => [])
     ++ (match value with
         | some v => [("value", Json.str (format_quantity v))]
         | none => [])
     ++ (match data with
         | some d => [("data", Json.str d)]
         | none => [])
     ++ (match nonce with
         | some n => [("nonce", Json.str (format_quantity n))]
         | none => [])
     ++ (match condition with
         | some c => [("condition", c)]
         | none => []))

/-- `DEFAULT_BLOCK` (core.py line 171). -/
def DEFAULT_BLOCK : String := "latest"

-- KECCAK-256 (semantics of `Crypto.Hash.keccak`, `digest_bits=256`:
-- original Keccak with multi-rate `pad10*1` padding, rate 1088 bits)

/-- 64-bit lane mask. -/
def mask64 : Nat := 0xffffffffffffffff

/-- Left-rotate a 64-bit lane by `n < 64` bits. -/
def rotl64 (x n : Nat) : Nat := ((x <<< n) ||| (x >>> (64 - n))) &&& mask64

/-- The 24 Keccak-f[1600] round constants. -/
def keccakRC : List Nat :=
  [1, 32898,
   9223372036854808714, 9223372039002292224,
   32907, 2147483649,
   9223372039002292353, 9223372036854808585,
   138, 136,
   2147516425, 2147483658,
   2147516555, 9223372036854775947,
   9223372036854808713, 9223372036854808579,
   9223372036854808578, 9223372036854775936,
   32778, 9223372039002259466,
   9223372039002292353, 9223372036854808704,
   2147483649, 9223372039002292232]

/-- θ step: xor each lane with the parity of two neighbouring columns.
Lane `(x, y)` lives at index `x + 5 * y`. -/
def keccakTheta (st : List Nat) : List Nat :=
  let c := (List.range 5).map (fun x =>
    st.getD x 0 ^^^ st.getD (x + 5) 0 ^^^ st.getD (x + 10) 0 ^^^
      st.getD (x + 15) 0 ^^^ st.getD (x + 20) 0)
  let d := (List.range 5).map (fun x =>
    c.getD ((x + 4) % 5) 0 ^^^ rotl64 (c.getD ((x + 1) % 5) 0) 1)
  (List.range 25).map (fun i => st.getD i 0 ^^^ d.getD (i % 5) 0)

/-- Combined ρ and π steps as a lookup table: output lane `j` is input
lane `(keccakRhoPi[j]).1` rotated left by `(keccakRhoPi[j]).2`. -/
def keccakRhoPi : List (Nat × Nat) :=
  [(0, 0), (6, 44), (12, 43), (18, 21), (24, 14),
   (3, 28), (9, 20), (10, 3), (16, 45), (22, 61),
   (1, 1), (7, 6), (13, 25), (19, 8), (20, 18),
   (4, 27), (5, 36), (11, 10), (17, 15), (23, 56),
   (2, 62), (8, 55), (14, 39), (15, 41), (21, 2)]

/-- ρ and π steps. -/
def keccakRhoPiStep (st : List Nat) : List Nat :=
  keccakRhoPi.map (fun p => rotl64 (st.getD p.1 0) p.2)

/-- χ step: non-linear row mixing. -/
def keccakChi (st : List Nat) : List Nat :=
  (List.range 25).map (fun i =>
    let x := i % 5
    let y := i / 5
    st.getD i 0 ^^^
      ((st.getD ((x + 1) % 5 + 5 * y) 0 ^^^ mask64) &&&
        st.getD ((x + 2) % 5 + 5 * y) 0))

/-- One Keccak-f round: θ, ρ, π, χ, then ι (xor the round constant into
lane 0). -/
def keccakRound (st : List Nat) (rc : Nat) : List Nat :=
  match keccakChi (keccakRhoPiStep (keccakTheta st)) with
  | t0 :: rest => (t0 ^^^ rc) :: rest
  | [] => []

/-- The Keccak-f[1600] permutation: 24 rounds. -/
def keccakF (st : List Nat) : List Nat := keccakRC.foldl keccakRound st

/-- Multi-rate padding `pad10*1` with domain byte `0x01` (original Keccak,
as used by Ethereum), for rate 136 bytes. -/
def keccakPad (len : Nat) : List Nat :=
  let padlen := 136 - len % 136
  if padlen = 1 then [0x81]
  else 0x01 :: (List.replicate (padlen - 2) 0 ++ [0x80])

/-- Little-endian 64-bit word from up to 8 bytes. -/
def leWord (bs : List Nat) : Nat := bs.foldr (fun b acc => b + 256 * acc) 0

/-- Split a 136-byte block into 17 lanes. -/
def bytesToLanes (block : List Nat) : List Nat :=
  (List.range 17).map (fun i => leWord ((block.drop (8 * i)).take 8))

/-- Xor a block's 17 lanes into the 25-lane state. -/
def xorInto (st lanes : List Nat) : List Nat :=
  (List.range 25).map (fun i =>
    st.getD i 0 ^^^ (if i < 17 then lanes.getD i 0 else 0))

/-- Absorb the padded message 136 bytes at a time.  The first argument is
structural fuel; the padded length is always enough since each step
consumes at least one byte. -/
def absorbBlocks : Nat → List Nat → List Nat → List Nat
  | 0, st, _ => st
  | fuel + 1, st, bs =>
    match bs with
    | [] => st
    | _ :: _ =>
      absorbBlocks fuel (keccakF (xorInto st (bytesToLanes (bs.take 136))))
        (bs.drop 136)

/-- Keccak-256 of a byte string: pad, absorb, and squeeze the first
32 bytes of the final state (little-endian within each lane). -/
def keccak256 (msg : List Nat) : List Nat :=
  let padded := msg ++ keccakPad msg.length
  let st := absorbBlocks padded.length (List.replicate 25 0) padded
  (List.range 32).map (fun i => (st.getD (i / 8) 0 >>> (8 * (i % 8))) % 256)

/-- Two lowercase hex characters for one byte, as in `hexdigest`. -/
def byteToHex (b : Nat) : List Char :=
  [hexDigitChar (b / 16 % 16), hexDigitChar (b % 16)]

/-- Lowercase hex rendering of a byte string, as in `hexdigest`. -/
def bytesToHex (bs : List Nat) : List Char := (bs.map byteToHex).flatten

-- MAP_POSITION (core.py lines 179-193)

/-- Python `str.rjust`: left-pad with `fill` to `width` characters
(unchanged when already at least that long). -/
def rjust (width : Nat) (fill : Char) (s : List Char) : List Char :=
  List.replicate (width - s.length) fill ++ s

/-- `binascii.unhexlify`: pairs of hex characters to bytes; fails on an
odd-length string or a non-hex character (`binascii.Error`, a subclass of
`ValueError`). -/
def unhexlify : List Char → Option (List Nat)
  | [] => some []
  | [_] => none
  | c1 :: c2 :: rest =>
    match hexVal? c1, hexVal? c2, unhexlify rest with
    | some h, some l, some bs => some ((16 * h + l) :: bs)
    | _, _, _ => none

/-- `map_position` (core.py line 179): strip the `0x` prefix from `key`,
left-pad it to 64 hex characters with `0`, format `position` as
`'\x7b0:064x\x7d'` does, unhexlify the concatenation and return `0x` plus the
Keccak-256 hex digest.  A `binascii.Error` from `unhexlify` propagates as
the `ValueError` it is. -/
def map_position (key : String) (position : Nat) : Except PyError String :=
  match unhexlify (rjust 64 '0' ( remove_hex_prefix key).toList
      ++ rjust 64 '0' (natToHexList position)) with
  | some bytes => .ok ("0x" ++ (bytesToHex (keccak256 bytes)).asString)
  | none => .error (.valueError "non-hexadecimal digit or odd-length string")

-- METHOD REGISTRY (core.py: CLIENT_METHODS, lines 2867-3110, and the
-- registration loop `AbstractClient._AbstractClient__method`)

/-- The full `CLIENT_METHODS` table: `(python_name, rpc_name, rpc_id)`
triples, registered once at import time. -/
def CLIENT_METHODS : List (String × String × Nat) := [
  ("web3_client_version", "web3_clientVersion", 67),
  ("web3_sha3", "web3_sha3", 64),
  ("net_listening", "net_listening", 67),
  ("net_peer_count", "net_peerCount", 74),
  ("net_version", "net_version", 67),
  ("eth_accounts", "eth_accounts", 1),
  ("eth_block_number", "eth_blockNumber", 83),
  ("eth_call", "eth_call", 1),
  ("eth_coinbase", "eth_coinbase", 64),
  ("eth_compile_lll", "eth_compileLLL", 1),
  ("eth_compile_serpent", "eth_compileSerpent", 1),
  ("eth_compile_solidity", "eth_compileSolidity", 1),
  ("eth_estimate_gas", "eth_estimateGas", 1),
  ("eth_gas_price", "eth_gasPrice", 73),
  ("eth_get_balance", "eth_getBalance", 1),
  ("eth_get_block_by_hash", "eth_getBlockByHash", 1),
  ("eth_get_block_by_number", "eth_getBlockByNumber", 1),
  ("eth_get_block_transaction_count_by_hash", "eth_getBlockTransactionCountByHash", 1),
  ("eth_get_block_transaction_count_by_number", "eth_getBlockTransactionCountByNumber", 1),
  ("eth_get_code", "eth_getCode", 1),
  ("eth_get_compilers", "eth_getCompilers", 1),
  ("eth_get_filter_changes", "eth_getFilterChanges", 73),
  ("eth_get_filter_logs", "eth_getFilterLogs", 73),
  ("eth_get_logs", "eth_getLogs", 73),
  ("eth_get_storage_at", "eth_getStorageAt", 1),
  ("eth_get_transaction_by_block_hash_and_index", "eth_getTransactionByBlockHashAndIndex", 1),
  ("eth_get_transaction_by_block_number_and_index", "eth_getTransactionByBlockNumberAndIndex", 1),
  ("eth_get_transaction_by_hash", "eth_getTransactionByHash", 1),
  ("eth_get_transaction_count", "eth_getTransactionCount", 1),
  ("eth_get_transaction_receipt", "eth_getTransactionReceipt", 1),
  ("eth_get_uncle_by_block_hash_and_index", "eth_getUncleByBlockHashAndIndex", 1),
  ("eth_get_uncle_by_block_number_and_index", "eth_getUncleByBlockNumberAndIndex", 1),
  ("eth_get_uncle_count_by_block_hash", "eth_getUncleCountByBlockHash", 1),
  ("eth_get_uncle_count_by_block_number", "eth_getUncleCountByBlockNumber", 1),
  ("eth_get_work", "eth_getWork", 73),
  ("eth_hashrate", "eth_hashrate", 71),
  ("eth_mining", "eth_mining", 71),
  ("eth_new_block_filter", "eth_newBlockFilter", 73),
  ("eth_new_filter", "eth_newFilter", 73),
  ("eth_new_pending_transaction_filter", "eth_newPendingTransactionFilter", 73),
  ("eth_protocol_version", "eth_protocolVersion", 67),
  ("eth_send_raw_transaction", "eth_sendRawTransaction", 1),
  ("eth_send_transaction", "eth_sendTransaction", 1),
  ("eth_sign", "eth_sign", 1),
  ("eth_sign_transaction", "eth_signTransaction", 1),
  ("eth_submit_hashrate", "eth_submitHashrate", 73),
  ("eth_submit_work", "eth_submitWork", 73),
  ("eth_syncing", "eth_syncing", 1),
  ("eth_uninstall_filter", "eth_uninstallFilter", 73),
  ("eth_subscribe", "eth_subscribe", 1),
  ("eth_unsubscribe", "eth_unsubscribe", 1),
  ("personal_ec_recover", "personal_ecRecover", 1),
  ("personal_import_raw_key", "personal_importRawKey", 1),
  ("personal_list_accounts", "personal_listAccounts", 1),
  ("personal_lock_account", "personal_lockAccount", 1),
  ("personal_new_account", "personal_newAccount", 1),
  ("personal_send_transaction", "personal_sendTransaction", 1),
  ("personal_sign", "personal_sign", 1),
  ("personal_unlock_account", "personal_unlockAccount", 1),
  ("parity_accounts_info", "parity_accountsInfo", 1),
  ("parity_chain", "parity_chain", 1),
  ("parity_chain_status", "parity_chainStatus", 1),
  ("parity_change_vault", "parity_changeVault", 1),
  ("parity_change_vault_password", "parity_changeVaultPassword", 1),
  ("parity_check_request", "parity_checkRequest", 1),
  ("parity_cid_v0", "parity_cidV0", 1),
  ("parity_close_vault", "parity_closeVault", 1),
  ("parity_compose_transaction", "parity_composeTransaction", 1),
  ("parity_consensus_capability", "parity_consensusCapability", 1),
  ("parity_dapps_url", "parity_dappsUrl", 1),
  ("parity_decrypt_message", "parity_decryptMessage", 1),
  ("parity_default_account", "parity_defaultAccount", 1),
  ("parity_default_extra_data", "parity_defaultExtraData", 1),
  ("parity_dev_logs", "parity_devLogs", 1),
  ("parity_dev_logs_levels", "parity_devLogsLevels", 1),
  ("parity_encrypt_message", "parity_encryptMessage", 1),
  ("parity_enode", "parity_enode", 1),
  ("parity_extra_data", "parity_extraData", 1),
  ("parity_future_transactions", "parity_futureTransactions", 1),
  ("parity_gas_ceil_target", "parity_gasCeilTarget", 1),
  ("parity_gas_floor_target", "parity_gasFloorTarget", 1),
  ("parity_gas_price_histogram", "parity_gasPriceHistogram", 1),
  ("parity_generate_secret_phrase", "parity_generateSecretPhrase", 1),
  ("parity_get_block_header_by_number", "parity_getBlockHeaderByNumber", 1),
  ("parity_get_vault_meta", "parity_getVaultMeta", 1),
  ("parity_hardware_accounts_info", "parity_hardwareAccountsInfo", 1),
  ("parity_list_accounts", "parity_listAccounts", 1),
  ("parity_list_opened_vaults", "parity_listOpenedVaults", 1),
  ("parity_list_storage_keys", "parity_listStorageKeys", 1),
  ("parity_list_vaults", "parity_listVaults", 1),
  ("parity_local_transactions", "parity_localTransactions", 1),
  ("parity_min_gas_price", "parity_minGasPrice", 1),
  ("parity_mode", "parity_mode", 1),
  ("parity_new_vault", "parity_newVault", 1),
  ("parity_net_chain", "parity_netChain", 1),
  ("parity_net_peers", "parity_netPeers", 1),
  ("parity_net_port", "parity_netPort", 1),
  ("parity_next_nonce", "parity_nextNonce", 1),
  ("parity_node_kind", "parity_nodeKind", 1),
  ("parity_node_name", "parity_nodeName", 1),
  ("parity_pending_transactions", "parity_pendingTransactions", 1),
  ("parity_pending_transactions_stats", "parity_pendingTransactionsStats", 1),
  ("parity_phrase_to_address", "parity_phraseToAddress", 1),
  ("parity_open_vault", "parity_openVault", 1),
  ("parity_post_sign", "parity_postSign", 1),
  ("parity_post_transaction", "parity_postTransaction", 1),
  ("parity_registry_address", "parity_registryAddress", 1),
  ("parity_releases_info", "parity_releasesInfo", 1),
  ("parity_remove_transaction", "parity_removeTransaction", 1),
  ("parity_rpc_settings", "parity_rpcSettings", 1),
  ("parity_set_vault_meta", "parity_setVaultMeta", 1),
  ("parity_sign_message", "parity_signMessage", 1),
  ("parity_transactions_limit", "parity_transactionsLimit", 1),
  ("parity_unsigned_transactions_count", "parity_unsignedTransactionsCount", 1),
  ("parity_version_info", "parity_versionInfo", 1),
  ("parity_ws_url", "parity_wsUrl", 1),
  ("parity_accept_non_reserved_peers", "parity_acceptNonReservedPeers", 1),
  ("parity_add_reserved_peer", "parity_addReservedPeer", 1),
  ("parity_dapps_list", "parity_dappsList", 1),
  ("parity_drop_non_reserved_peers", "parity_dropNonReservedPeers", 1),
  ("parity_execute_upgrade", "parity_executeUpgrade", 1),
  ("parity_hash_content", "parity_hashContent", 1),
  ("parity_remove_reserved_peer", "parity_removeReservedPeer", 1),
  ("parity_set_author", "parity_setAuthor", 1),
  ("parity_set_chain", "parity_setChain", 1),
  ("parity_set_engine_signer", "parity_setEngineSigner", 1),
  ("parity_set_extra_data", "parity_setExtraData", 1),
  ("parity_set_gas_ceil_target", "parity_setGasCeilTarget", 1),
  ("parity_set_gas_floor_target", "parity_setGasFloorTarget", 1),
  ("parity_set_max_transaction_gas", "parity_setMaxTransactionGas", 1),
  ("parity_set_min_gas_price", "parity_setMinGasPrice", 1),
  ("parity_set_mode", "parity_setMode", 1),
  ("parity_set_transactions_limit", "parity_setTransactionsLimit", 1),
  ("parity_upgrade_ready", "parity_upgradeReady", 1),
  ("parity_subscribe", "parity_subscribe", 1),
  ("parity_unsubscribe", "parity_unsubscribe", 1),
  ("parity_all_accounts_info", "parity_allAccountsInfo", 1),
  ("parity_change_password", "parity_changePassword", 1),
  ("parity_derive_address_hash", "parity_deriveAddressHash", 1),
  ("parity_derive_address_index", "parity_deriveAddressIndex", 1),
  ("parity_export_account", "parity_exportAccount", 1),
  ("parity_get_dapp_addresses", "parity_getDappAddresses", 1),
  ("parity_get_dapp_default_address", "parity_getDappDefaultAddress", 1),
  ("parity_get_new_dapps_addresses", "parity_getNewDappsAddresses", 1),
  ("parity_get_new_dapps_default_address", "parity_getNewDappsDefaultAddress", 1),
  ("parity_import_geth_accounts", "parity_importGethAccounts", 1),
  ("parity_kill_account", "parity_killAccount", 1),
  ("parity_list_geth_accounts", "parity_listGethAccounts", 1),
  ("parity_list_recent_dapps", "parity_listRecentDapps", 1),
  ("parity_new_account_from_phrase", "parity_newAccountFromPhrase", 1),
  ("parity_new_account_from_secret", "parity_newAccountFromSecret", 1),
  ("parity_new_account_from_wallet", "parity_newAccountFromWallet", 1),
  ("parity_remove_address", "parity_removeAddress", 1),
  ("parity_set_account_meta", "parity_setAccountMeta", 1),
  ("parity_set_account_name", "parity_setAccountName", 1),
  ("parity_set_dapp_addresses", "parity_setDappAddresses", 1),
  ("parity_set_dapp_default_address", "parity_setDappDefaultAddress", 1),
  ("parity_set_new_dapps_addresses", "parity_setNewDappsAddresses", 1),
  ("parity_set_new_dapps_default_address", "parity_setNewDappsDefaultAddress", 1),
  ("parity_test_password", "parity_testPassword", 1),
  ("signer_confirm_request", "signer_confirmRequest", 1),
  ("signer_confirm_request_raw", "signer_confirmRequestRaw", 1),
  ("signer_confirm_request_with_token", "signer_confirmRequestWithToken", 1),
  ("signer_generate_authorization_token", "signer_generateAuthorizationToken", 1),
  ("signer_generate_web_proxy_access_token", "signer_generateWebProxyAccessToken", 1),
  ("signer_reject_request", "signer_rejectRequest", 1),
  ("signer_requests_to_confirm", "signer_requestsToConfirm", 1),
  ("signer_subscribe_pending", "signer_subscribePending", 1),
  ("signer_unsubscribe_pending", "signer_unsubscribePending", 1),
  ("trace_block", "trace_block", 1),
  ("trace_call", "trace_call", 1),
  ("trace_filter", "trace_filter", 1),
  ("trace_get", "trace_get", 1),
  ("trace_raw_transaction", "trace_RawTransaction", 1),
  ("trace_replay_transaction", "trace_replayTransaction", 1),
  ("trace_transaction", "trace_transaction", 1),
  ("admin_add_peer", "admin_addPeer", 1),
  ("admin_datadir", "admin_datadir", 1),
  ("admin_node_info", "admin_nodeInfo", 1),
  ("admin_peers", "admin_peers", 1),
  ("admin_set_solc", "admin_setSolc", 1),
  ("admin_start_rpc", "admin_startRPC", 1),
  ("admin_start_ws", "admin_startWS", 1),
  ("admin_stop_rpc", "admin_stopRPC", 1),
  ("admin_stop_ws", "admin_stopWS", 1),
  ("debug_backtrace_at", "debug_backtraceAt", 1),
  ("debug_block_profile", "debug_blockProfile", 1),
  ("debug_cpu_profile", "debug_cpuProfile", 1),
  ("debug_dump_block", "debug_dumpBlock", 1),
  ("debug_gc_stats", "debug_gcStats", 1),
  ("debug_get_block_rlp", "debug_getBlockRlp", 1),
  ("debug_go_trace", "debug_goTrace", 1),
  ("debug_mem_stats", "debug_memStats", 1),
  ("debug_seed_hash", "debug_seedHash", 1),
  ("debug_set_head", "debug_setHead", 1),
  ("debug_set_block_profile_rate", "debug_setBlockProfileRate", 1),
  ("debug_stacks", "debug_stacks", 1),
  ("debug_start_cpu_profile", "debug_startCPUProfile", 1),
  ("debug_start_go_trace", "debug_startGoTrace", 1),
  ("debug_stop_cpu_profile", "debug_stopCPUProfile", 1),
  ("debug_stop_go_trace", "debug_stopGoTrace", 1),
  ("debug_trace_block", "debug_traceBlock", 1),
  ("debug_trace_block_by_number", "debug_traceBlockByNumber", 1),
  ("debug_trace_block_by_hash", "debug_traceBlockByHash", 1),
  ("debug_trace_block_from_file", "debug_traceBlockFromFile", 1),
  ("debug_trace_transaction", "debug_traceTransaction", 1),
  ("debug_verbosity", "debug_verbosity", 1),
  ("debug_vmodule", "debug_vmodule", 1),
  ("debug_write_block_profile", "debug_writeBlockProfile", 1),
  ("debug_write_mem_profile", "debug_writeMemProfile", 1),
  ("miner_set_extra", "miner_setExtra", 1),
  ("miner_set_gas_price", "miner_setGasPrice", 1),
  ("miner_start", "miner_start", 1),
  ("miner_stop", "miner_stop", 1),
  ("miner_set_ether_base", "miner_setEtherBase", 1),
  ("txpool_content", "txpool_content", 1),
  ("txpool_inspect", "txpool_inspect", 1),
  ("txpool_status", "txpool_status", 1),
  ("shh_add_private_key", "shh_addPrivateKey", 1),
  ("shh_add_sym_key", "shh_addSymKey", 1),
  ("shh_add_to_group", "shh_addToGroup", 73),
  ("shh_delete_key", "shh_deleteKey", 1),
  ("shh_delete_message_filter", "shh_deleteMessageFilter", 1),
  ("shh_get_filter_changes", "shh_getFilterChanges", 73),
  ("shh_get_filter_messages", "shh_getFilterMessages", 1),
  ("shh_get_messages", "shh_getMessages", 73),
  ("shh_get_private_key", "shh_getPrivateKey", 1),
  ("shh_get_public_key", "shh_getPublicKey", 1),
  ("shh_get_sym_key", "shh_getSymKey", 1),
  ("shh_has_identity", "shh_hasIdentity", 73),
  ("shh_info", "shh_info", 1),
  ("shh_new_filter", "shh_newFilter", 73),
  ("shh_new_group", "shh_newGroup", 73),
  ("shh_new_identity", "shh_newIdentity", 73),
  ("shh_new_key_pair", "shh_newKeyPair", 1),
  ("shh_new_message_filter", "shh_newMessageFilter", 1),
  ("shh_new_sym_key", "shh_newSymKey", 1),
  ("shh_post", "shh_post", 73),
  ("shh_subscribe", "shh_subscribe", 1),
  ("shh_uninstall_filter", "shh_uninstallFilter", 73),
  ("shh_unsubscribe", "shh_unsubscribe", 1),
  ("shh_version", "shh_version", 67)
]

/-- The bidirectional method table built by the registration loop:
`table[python_name] = rpc_name` for every entry. -/
def method_table : List (String × String) :=
  CLIENT_METHODS.map (fun t => (t.1, t.2.1))

/-- `AbstractClient.rpc_name` (core.py line 228): forward lookup in the
bidirectional table, returning the input unchanged when absent. -/
def rpc_name (name : String) : String :=
  match method_table.find? (fun p => p.1 == name) with
  | some p => p.2
  | none => name

/-- `AbstractClient.python_name` (core.py line 236): inverse lookup in the
bidirectional table, returning the input unchanged when absent. -/
def python_name (name : String) : String :=
  match method_table.find? (fun p => p.2 == name) with
  | some p => p.1
  | none => name

-- STORAGE-POSITION SPEC SIDE (refinement target for `map_position`)

/-- Big-endian `k`-byte encoding of `n` (the low `k` bytes of `n`). -/
def beBytes : Nat → Nat → List Nat
  | 0, _ => []
  | k + 1, n => (n / 256 ^ k) % 256 :: beBytes k n

/-- Numeric value of a hex digit string (most significant first);
non-hex characters count as zero. -/
def valHex (l : List Char) : Nat :=
  l.foldl (fun a c => 16 * a + (hexVal? c).getD 0) 0

/-- `true` for the lowercase hex alphabet `0-9a-f`. -/
def isLowerHex (c : Char) : Bool :=
  ('0' ≤ c && c ≤ '9') || ('a' ≤ c && c ≤ 'f')

/-- `computeStoragePosition`, following the spec's words: Keccak-256 of
the key's value left-padded to 32 bytes, concatenated with the slot's
big-endian value left-padded to 32 bytes, rendered as `0x` plus 64
lowercase hex characters. -/
def computeStoragePosition_spec (key : String) (slot : Nat) : String :=
  "0x" ++ (bytesToHex (keccak256
    (beBytes 32 (valHex ( remove_hex_prefix key).toList)
      ++ beBytes 32 slot))).asString

-- STRING KEYS

/-- Injective-enough numeric key for a string (base > any code point), so
that distinctness of keys can be checked by fast `Nat` comparisons. -/
def strKey (s : String) : Nat :=
  s.toList.foldl (fun a c => a * 1114112 + c.toNat) 1

-- CALL ENVELOPE & DISPATCH (core.py lines 246-287)

/-- The JSON-RPC 2.0 request envelope built by `AbstractClient.__call`
(core.py line 246): `payload = {jsonrpc, method, params, id}`. -/
def mkPayload (method : String) (id_ : Nat) (params : Json) : Json :=
  .obj [("jsonrpc", .str "2.0"), ("method", .str method),
        ("params", params), ("id", .num id_)]

/-- The wrapper `f` built by `AbstractClient.__method` (core.py line 279)
composed with `__call`: shape the parameters (which may raise), wrap them
in the envelope with the registered wire name and id, hand the envelope to
the transport's single send primitive, and return its result unchanged.
The transport is the abstract `call` method, modelled as `send`. -/
def dispatch {ρ : Type} (send : Json → ρ) (wire_name : String) (rpc_id : Nat)
    (params : Except PyError Json) : Except PyError ρ :=
  params.map (fun ps => send (mkPayload wire_name rpc_id ps))

-- METHOD IMPLEMENTATIONS (parameter shapers)

/-- `AbstractClient.__eth_get_balance` (core.py line 429): positional
params `[address, format_block(block)]`, `block` defaulting to
`DEFAULT_BLOCK`. -/
def eth_get_balance_impl (address : String)
    (block : BlockArg := .str DEFAULT_BLOCK) : List Json :=
  [.str address, .str (format_block block)]

/-- `AbstractClient.__eth_call` (core.py line 348): all parameters default
to `None`; a missing `block` raises `ValueError` before anything else;
otherwise params are `[format_transaction(...), format_block(block)]`. -/
def eth_call_impl (from_ : Option String := none) («to» : Option String := none)
    (gas : Option Int := none) (gas_price : Option Int := none)
    (value : Option Int := none) (data : Option String := none)
    (block : Option BlockArg := none) : Except PyError (List Json) :=
  match block with
  | none => .error (.valueError "Block parameter must be provided.")
  | some b =>
    .ok [format_transaction from_ «to» gas gas_price value data,
         .str (format_block b)]

/-- `AbstractClient.__trace_call` (core.py line 2091): same contract as
`__eth_call`. -/
def trace_call_impl (from_ : Option String := none) («to» : Option String := none)
    (gas : Option Int := none) (gas_price : Option Int := none)
    (value : Option Int := none) (data : Option String := none)
    (block : Option BlockArg := none) : Except PyError (List Json) :=
  match block with
  | none => .error (.valueError "Block parameter must be provided.")
  | some b =>
    .ok [format_transaction from_ «to» gas gas_price value data,
         .str (format_block b)]

/-- `AbstractClient.__eth_subscribe` (core.py line 807): `"logs"` builds a
filter object from the optional arguments, `"newHeads"` sends an empty
object, anything else raises `ValueError`. -/
def eth_subscribe_impl (type_ : String)
    (from_block : Option BlockArg := none) (to_block : Option BlockArg := none)
    (address : Option Json := none) (topics : Option (List Json) := none) :
    Except PyError (List Json) :=
  if type_ = "logs" then
    .ok [.str type_, format_filter from_block to_block address topics]
  else if type_ = "newHeads" then
    .ok [.str type_, .obj []]
  else
    .error (.valueError "Unexpected eth_subscribe type.")

/-- Python local-name resolution: look a name up in the local scope, a
`NameError` if absent. -/
def pyLookup (scope : List (String × Json)) (name : String) :
    Except PyError Json :=
  match scope.find? (fun p => p.1 == name) with
  | some p => .ok p.2
  | none => .error (.nameError name)

/-- `AbstractClient.__personal_lock_account` (core.py line 872): the body
is `return [password]`, but the only name in scope is the parameter
`address` — evaluating the body resolves the free name `password`. -/
def personal_lock_account_impl (address : String) : Except PyError (List Json) :=
  (pyLookup [("address", .str address)] "password").map (fun v => [v])

/-- `AbstractClient.__shh_new_filter` (core.py line 2744): builds the
filter object and returns it bare — not wrapped in a params list, unlike
every sibling method. -/
def shh_new_filter_impl (topics : List Json) («to» : Option String := none) :
    Json :=
  .obj ([("topics", .arr topics)]
     ++ (match «to» with
         | some t => [("to", .str t)]
         | none => []))

-- BOUND CLIENT METHODS (the attributes installed by the registration loop)

/-- The client attribute `eth_get_balance` installed by
`AbstractClient.__method('eth_get_balance', 'eth_getBalance', 1)`. -/
def eth_get_balance_method {ρ : Type} (send : Json → ρ) (address : String)
    (block : BlockArg := .str DEFAULT_BLOCK) : Except PyError ρ :=
  dispatch send "eth_getBalance" 1 (.ok (.arr (eth_get_balance_impl address block)))

/-- The client attribute `eth_getBalance`: the same wrapper installed
under the wire name. -/
def eth_getBalance_method {ρ : Type} (send : Json → ρ) (address : String)
    (block : BlockArg := .str DEFAULT_BLOCK) : Except PyError ρ :=
  eth_get_balance_method send address block

/-- The client attribute `eth_call` installed by
`AbstractClient.__method('eth_call', 'eth_call', 1)`. -/
def eth_call_method {ρ : Type} (send : Json → ρ)
    (from_ : Option String := none) («to» : Option String := none)
    (gas : Option Int := none) (gas_price : Option Int := none)
    (value : Option Int := none) (data : Option String := none)
    (block : Option BlockArg := none) : Except PyError ρ :=
  dispatch send "eth_call" 1
    ((eth_call_impl from_ «to» gas gas_price value data block).map .arr)

/-- The client attribute `trace_call` installed by
`AbstractClient.__method('trace_call', 'trace_call', 1)`. -/
def trace_call_method {ρ : Type} (send : Json → ρ)
    (from_ : Option String := none) («to» : Option String := none)
    (gas : Option Int := none) (gas_price : Option Int := none)
    (value : Option Int := none) (data : Option String := none)
    (block : Option BlockArg := none) : Except PyError ρ :=
  dispatch send "trace_call" 1
    ((trace_call_impl from_ «to» gas gas_price value data block).map .arr)

-- REGISTRY LEMMAS


set_option maxRecDepth 10000 in
/-- The 242 registered python-side names are pairwise distinct. -/
theorem method_fst_keys_nodup : ((method_table.map Prod.fst).map strKey).Nodup := by
  decide

set_option maxRecDepth 10000 in
/-- The 242 registered wire names are pairwise distinct. -/
theorem method_snd_keys_nodup : ((method_table.map Prod.snd).map strKey).Nodup := by
  decide

/-- In a list whose `k`-keys are pairwise distinct, searching for the key
of a member finds exactly that member. -/
theorem find?_key_eq_some {α κ : Type} [BEq κ] [LawfulBEq κ] (k : α → κ) :
    ∀ (l : List α) (p : α), (l.map k).Nodup → p ∈ l →
      l.find? (fun q => k q == k p) = some p := by
  intro l
  induction l with
  | nil => intro p _ hp; cases hp
  | cons a rest ih =>
    intro p hnd hp
    rw [List.map_cons, List.nodup_cons] at hnd
    rcases List.mem_cons.mp hp with rfl | hmem
    · rw [List.find?_cons_of_pos _ (by simp)]
    · have hne : (k a == k p) = false := by
        apply beq_eq_false_iff_ne.mpr
        intro h
        exact hnd.1 (h ▸ List.mem_map_of_mem k hmem)
      rw [List.find?_cons_of_neg _ (by simp [hne]), ih p hnd.2 hmem]

/-- Forward lookup of a registered python-side name yields its wire name. -/
theorem rpc_name_of_mem (p : String × String × Nat) (hp : p ∈ CLIENT_METHODS) :
    rpc_name p.1 = p.2.1 := by
  have hmem : (p.1, p.2.1) ∈ method_table :=
    List.mem_map_of_mem (fun t => (t.1, t.2.1)) hp
  have hnd : (method_table.map Prod.fst).Nodup :=
    List.Nodup.of_map strKey method_fst_keys_nodup
  have hfind := find?_key_eq_some Prod.fst method_table (p.1, p.2.1) hnd hmem
  unfold rpc_name
  rw [hfind]

/-- Inverse lookup of a registered wire name yields its python-side name. -/
theorem python_name_of_mem (p : String × String × Nat) (hp : p ∈ CLIENT_METHODS) :
    python_name p.2.1 = p.1 := by
  have hmem : (p.1, p.2.1) ∈ method_table :=
    List.mem_map_of_mem (fun t => (t.1, t.2.1)) hp
  have hnd : (method_table.map Prod.snd).Nodup :=
    List.Nodup.of_map strKey method_snd_keys_nodup
  have hfind := find?_key_eq_some Prod.snd method_table (p.1, p.2.1) hnd hmem
  unfold python_name
  rw [hfind]

/-- Forward lookup passes an unregistered name through unchanged. -/
theorem rpc_name_pass_through (name : String)
    (h : name ∉ method_table.map Prod.fst) : rpc_name name = name := by
  unfold rpc_name
  rw [List.find?_eq_none.mpr]
  intro x hx
  simp only [beq_iff_eq]
  intro hxe
  exact h (hxe ▸ List.mem_map_of_mem Prod.fst hx)

/-- Inverse lookup passes an unregistered name through unchanged. -/
theorem python_name_pass_through (name : String)
    (h : name ∉ method_table.map Prod.snd) : python_name name = name := by
  unfold python_name
  rw [List.find?_eq_none.mpr]
  intro x hx
  simp only [beq_iff_eq]
  intro hxe
  exact h (hxe ▸ List.mem_map_of_mem Prod.snd hx)

-- CLAIM THEOREMS

/-- C1: for every address string `a`, invoking the client's
`eth_get_balance` / `eth_getBalance` method with arguments `(a, "latest")`
constructs exactly the envelope
`{jsonrpc: "2.0", method: "eth_getBalance", params: [a, "latest"], id: 1}`
— where `1` is the registry's declared id for that method — hands it to
the transport's single send primitive, and returns the transport's result
unchanged. -/
theorem C1_eth_get_balance_envelope {ρ : Type} (send : Json → ρ) (a : String) :
    eth_get_balance_method send a (.str "latest") =
      .ok (send (Json.obj
        [("jsonrpc", .str "2.0"), ("method", .str "eth_getBalance"),
         ("params", .arr [.str a, .str "latest"]), ("id", .num 1)])) ∧
    eth_getBalance_method send a (.str "latest") =
      eth_get_balance_method send a (.str "latest") ∧
    ("eth_get_balance", "eth_getBalance", 1) ∈ CLIENT_METHODS :=
  ⟨rfl, rfl, by decide⟩

/-- C2: for every registered pair, `rpc_name` and `python_name` are mutual
inverses, and both are identity pass-through for a name that is absent
from the consulted direction of the table. -/
theorem C2_name_mapping_inverse :
    (∀ p ∈ CLIENT_METHODS, rpc_name p.1 = p.2.1 ∧ python_name p.2.1 = p.1) ∧
    (∀ name, name ∉ method_table.map Prod.fst → rpc_name name = name) ∧
    (∀ name, name ∉ method_table.map Prod.snd → python_name name = name) :=
  ⟨fun p hp => ⟨rpc_name_of_mem p hp, python_name_of_mem p hp⟩,
   rpc_name_pass_through, python_name_pass_through⟩

/-- Witness for C2 at concrete names: a registered pair maps both ways,
and an unregistered name passes through unchanged in both directions. -/
theorem C2_name_mapping_inverse_witness :
    rpc_name "eth_get_balance" = "eth_getBalance" ∧
    python_name "eth_getBalance" = "eth_get_balance" ∧
    rpc_name "no_such_method" = "no_such_method" ∧
    python_name "no_such_method" = "no_such_method" :=
  ⟨(C2_name_mapping_inverse.1 ("eth_get_balance", "eth_getBalance", 1)
      (by decide)).1,
   (C2_name_mapping_inverse.1 ("eth_get_balance", "eth_getBalance", 1)
      (by decide)).2,
   C2_name_mapping_inverse.2.1 "no_such_method" (by decide),
   C2_name_mapping_inverse.2.2 "no_such_method" (by decide)⟩

/-- C5: `eth_call` and `trace_call` raise `ValueError` when the `block`
argument is omitted, for every transport and without invoking it; with a
block `b` they return `[transaction object, format_block(b)]`; by
contrast `eth_get_balance`'s block argument defaults to `"latest"` and
its omission never raises. -/
theorem C5_block_mandatory {ρ : Type} (send : Json → ρ)
    (from_ «to» : Option String) (gas gas_price value : Option Int)
    (data : Option String) :
    eth_call_method send from_ «to» gas gas_price value data none =
      .error (.valueError "Block parameter must be provided.") ∧
    trace_call_method send from_ «to» gas gas_price value data none =
      .error (.valueError "Block parameter must be provided.") ∧
    (∀ b : BlockArg,
      eth_call_impl from_ «to» gas gas_price value data (some b) =
        .ok [format_transaction from_ «to» gas gas_price value data,
             .str (format_block b)] ∧
      trace_call_impl from_ «to» gas gas_price value data (some b) =
        .ok [format_transaction from_ «to» gas gas_price value data,
             .str (format_block b)]) ∧
    (∀ address : String,
      eth_get_balance_impl address = [.str address, .str "latest"]) :=
  ⟨rfl, rfl, fun _ => ⟨rfl, rfl⟩, fun _ => rfl⟩

/-- C6: `eth_subscribe` with kind `"newHeads"` ignores the optional
arguments and produces `["newHeads", {}]`; kind `"logs"` produces
`["logs", filter object]`, in particular `["logs", {fromBlock: "0x5"}]`
for `fromBlock=5`; any other kind raises `ValueError`. -/
theorem C6_eth_subscribe (from_block to_block : Option BlockArg)
    (address : Option Json) (topics : Option (List Json)) :
    eth_subscribe_impl "newHeads" from_block to_block address topics =
      .ok [.str "newHeads", .obj []] ∧
    eth_subscribe_impl "logs" from_block to_block address topics =
      .ok [.str "logs", format_filter from_block to_block address topics] ∧
    eth_subscribe_impl "logs" (some (.int 5)) =
      .ok [.str "logs", .obj [("fromBlock", .str "0x5")]] ∧
    (∀ kind : String, kind ≠ "logs" → kind ≠ "newHeads" →
      eth_subscribe_impl kind from_block to_block address topics =
        .error (.valueError "Unexpected eth_subscribe type.")) := by
  refine ⟨rfl, rfl, rfl, fun kind h1 h2 => ?_⟩
  simp [eth_subscribe_impl, h1, h2]

/-- Witness for C6 at a concrete unrecognized kind. -/
theorem C6_eth_subscribe_witness :
    eth_subscribe_impl "bogus" none none none none =
      .error (.valueError "Unexpected eth_subscribe type.") :=
  (C6_eth_subscribe none none none none).2.2.2 "bogus" (by decide) (by decide)

/-- C8: the `shh_new_filter` shaper hands a bare object — not a
positional array — to the envelope, violating the positional-`params`
contract every other method follows (evaluated at the test suite's own
input, `topics = ['66696c746572']`). -/
theorem C8_shh_new_filter_bare_object :
    shh_new_filter_impl [.str "66696c746572"] none =
      .obj [("topics", .arr [.str "66696c746572"])] ∧
    (shh_new_filter_impl [.str "66696c746572"] none).isArr = false :=
  ⟨rfl, rfl⟩

/-- C9: for every address, `personal_lock_account`'s shaper resolves the
free name `password` — which is not in scope — so it fails with a
`NameError` and never returns the parameter list `[address]`. -/
theorem C9_personal_lock_account_name_error (address : String) :
    personal_lock_account_impl address = .error (.nameError "password") ∧
    personal_lock_account_impl address ≠ .ok [.str address] := by
  refine ⟨rfl, fun h => ?_⟩
  rw [show personal_lock_account_impl address
        = .error (.nameError "password") from rfl] at h
  exact Except.noConfusion h

-- HEX ROUND-TRIP LEMMAS

/-- Parsing inverts the digit table on `d < 16`. -/
theorem hexVal?_hexDigitChar : ∀ d < 16, hexVal? (hexDigitChar d) = some d := by
  decide

/-- `natToHexAux` at zero yields no digits, whatever the fuel. -/
theorem natToHexAux_zero (fuel : Nat) : natToHexAux fuel 0 = [] := by
  cases fuel <;> simp [natToHexAux]

/-- `parseHexAux` consumes an append left to right. -/
theorem parseHexAux_append (l1 l2 : List Char) :
    ∀ acc, parseHexAux acc (l1 ++ l2) =
      (parseHexAux acc l1).bind (fun a => parseHexAux a l2) := by
  induction l1 with
  | nil => intro acc; simp [parseHexAux]
  | cons c cs ih =>
    intro acc
    simp only [List.cons_append, parseHexAux]
    cases hexVal? c with
    | none => simp
    | some d => simp [ih]

/-- Parsing the digits of `n` recovers `n`, shifted past the accumulator. -/
theorem parseHexAux_natToHexAux :
    ∀ fuel n acc, n ≤ fuel →
      parseHexAux acc (natToHexAux fuel n) =
        some (acc * 16 ^ (natToHexAux fuel n).length + n) := by
  intro fuel
  induction fuel with
  | zero =>
    intro n acc h
    interval_cases n
    simp [natToHexAux, parseHexAux]
  | succ fuel ih =>
    intro n acc h
    by_cases hn : n = 0
    · subst hn
      simp [natToHexAux, parseHexAux]
    · have hpos : 0 < n := Nat.pos_of_ne_zero hn
      have hdiv : n / 16 ≤ fuel := by
        have := Nat.div_lt_self hpos (by norm_num : 1 < 16)
        omega
      rw [show natToHexAux (fuel + 1) n
            = natToHexAux fuel (n / 16) ++ [hexDigitChar (n % 16)] by
          simp [natToHexAux, hn]]
      rw [parseHexAux_append, ih (n / 16) acc hdiv]
      have hm : hexVal? (hexDigitChar (n % 16)) = some (n % 16) :=
        hexVal?_hexDigitChar (n % 16) (Nat.mod_lt n (by norm_num))
      simp only [Option.some_bind, parseHexAux, hm, List.length_append,
        List.length_cons, List.length_nil]
      congr 1
      have hdm : 16 * (n / 16) + n % 16 = n := by omega
      calc 16 * (acc * 16 ^ (natToHexAux fuel (n / 16)).length + n / 16) + n % 16
          = acc * 16 ^ ((natToHexAux fuel (n / 16)).length + (0 + 1))
              + (16 * (n / 16) + n % 16) := by ring
        _ = acc * 16 ^ ((natToHexAux fuel (n / 16)).length + (0 + 1)) + n := by
              rw [hdm]

/-- Parsing the full hex digit string of `n` yields `n`. -/
theorem parseHexAux_natToHexList (n : Nat) :
    parseHexAux 0 (natToHexList n) = some n := by
  by_cases hn : n = 0
  · subst hn; rfl
  · rw [natToHexList, if_neg hn, parseHexAux_natToHexAux n n 0 le_rfl]
    simp

/-- The hex digit string is never empty. -/
theorem natToHexList_ne_nil (n : Nat) : natToHexList n ≠ [] := by
  by_cases hn : n = 0
  · subst hn; simp [natToHexList]
  · rw [natToHexList, if_neg hn]
    cases fuel_eq : n with
    | zero => exact absurd fuel_eq hn
    | succ m =>
      simp [natToHexAux, hn]

/-- The leading digit of a positive `n` is a nonzero hex digit. -/
theorem natToHexAux_head :
    ∀ fuel n, 0 < n → n ≤ fuel →
      ∃ d, 0 < d ∧ d < 16 ∧ (natToHexAux fuel n).head? = some (hexDigitChar d) := by
  intro fuel
  induction fuel with
  | zero => intro n h1 h2; omega
  | succ fuel ih =>
    intro n h1 h2
    have hn : n ≠ 0 := Nat.pos_iff_ne_zero.mp h1
    rw [show natToHexAux (fuel + 1) n
          = natToHexAux fuel (n / 16) ++ [hexDigitChar (n % 16)] by
        simp [natToHexAux, hn]]
    by_cases hlt : n < 16
    · rw [Nat.div_eq_of_lt hlt, natToHexAux_zero]
      exact ⟨n, h1, hlt, by simp [Nat.mod_eq_of_lt hlt]⟩
    · have hq : 0 < n / 16 := Nat.div_pos (le_of_not_lt hlt) (by norm_num)
      have hqf : n / 16 ≤ fuel := by
        have := Nat.div_lt_self h1 (by norm_num : 1 < 16)
        omega
      obtain ⟨d, hd1, hd2, hd3⟩ := ih (n / 16) hq hqf
      refine ⟨d, hd1, hd2, ?_⟩
      cases hrec : natToHexAux fuel (n / 16) with
      | nil => rw [hrec] at hd3; simp at hd3
      | cons r rs => rw [hrec] at hd3; simpa using hd3

/-- A nonzero hex digit never renders as the character zero. -/
theorem hexDigitChar_ne_zero : ∀ d < 16, 0 < d → hexDigitChar d ≠ '0' := by
  decide

/-- Positive quantities have no leading zero digit. -/
theorem natToHexList_head_ne_zero (n : Nat) (h : 0 < n) :
    (natToHexList n).head? ≠ some '0' := by
  rw [natToHexList, if_neg (Nat.pos_iff_ne_zero.mp h)]
  obtain ⟨d, hd1, hd2, hd3⟩ := natToHexAux_head n n h le_rfl
  rw [hd3]
  have : hexDigitChar d ≠ '0' := hexDigitChar_ne_zero d hd2 hd1
  simp [this]

/-- C7: for every non-negative integer `n`, `format_quantity n` is a
`0x`-prefixed hex string that parses back to `n`, zero renders as
`"0x0"`, and a positive value carries no leading zero digit. -/
theorem C7_format_quantity_roundtrip (n : Nat) :
    parse_quantity (format_quantity (n : Int)) = some n ∧
    (n = 0 → format_quantity (n : Int) = "0x0") ∧
    (0 < n → ((format_quantity (n : Int)).toList.drop 2).head? ≠ some '0') := by
  have hneg : ¬((n : Int) < 0) := by omega
  have habs : ((n : Int)).natAbs = n := by simp
  have hfq : format_quantity (n : Int) = "0x" ++ (natToHexList n).asString := by
    rw [format_quantity, if_neg hneg, habs]
  have htl : (format_quantity (n : Int)).toList = '0' :: 'x' :: natToHexList n := by
    rw [hfq]; simp [List.asString, String.toList]
  refine ⟨?_, ?_, ?_⟩
  · obtain ⟨c, cs, hcc⟩ := List.exists_cons_of_ne_nil (natToHexList_ne_nil n)
    unfold parse_quantity
    rw [htl, hcc]
    show parseHexAux 0 (c :: cs) = some n
    rw [← hcc, parseHexAux_natToHexList]
  · intro h
    subst h
    rw [hfq]
    rfl
  · intro h
    rw [htl]
    simpa using natToHexList_head_ne_zero n h

/-- Witness for C7 at `n = 0` and `n = 255`. -/
theorem C7_format_quantity_roundtrip_witness :
    (parse_quantity (format_quantity ((0 : Nat) : Int)) = some 0 ∧
      format_quantity ((0 : Nat) : Int) = "0x0") ∧
    (parse_quantity (format_quantity ((255 : Nat) : Int)) = some 255 ∧
      ((format_quantity ((255 : Nat) : Int)).toList.drop 2).head? ≠ some '0') :=
  ⟨⟨(C7_format_quantity_roundtrip 0).1, (C7_format_quantity_roundtrip 0).2.1 rfl⟩,
   ⟨(C7_format_quantity_roundtrip 255).1,
    (C7_format_quantity_roundtrip 255).2.2 (by decide)⟩⟩

/-- C10: for every negative integer `q`, `format_quantity q` does not
raise: it returns `-0x` followed by the hex digits of `|q|` — a string
that is not a `0x`-prefixed quantity and would go on the wire as-is. -/
theorem C10_format_quantity_negative (q : Int) (h : q < 0) :
    (format_quantity q).toList = '-' :: '0' :: 'x' :: natToHexList q.natAbs ∧
    parseHexAux 0 ((format_quantity q).toList.drop 3) = some q.natAbs ∧
    (format_quantity q).toList.take 2 ≠ ['0', 'x'] := by
  have hfq : format_quantity q = "-0x" ++ (natToHexList q.natAbs).asString := by
    rw [format_quantity, if_pos h]
  have htl : (format_quantity q).toList
      = '-' :: '0' :: 'x' :: natToHexList q.natAbs := by
    rw [hfq]; simp [List.asString, String.toList]
  refine ⟨htl, ?_, ?_⟩
  · rw [htl]
    show parseHexAux 0 (natToHexList q.natAbs) = some q.natAbs
    exact parseHexAux_natToHexList q.natAbs
  · rw [htl]
    simp

/-- Witness for C10 at `q = -5`. -/
theorem C10_format_quantity_negative_witness :
    (format_quantity (-5)).toList
      = '-' :: '0' :: 'x' :: natToHexList (Int.natAbs (-5)) ∧
    parseHexAux 0 ((format_quantity (-5)).toList.drop 3)
      = some (Int.natAbs (-5)) ∧
    (format_quantity (-5)).toList.take 2 ≠ ['0', 'x'] :=
  C10_format_quantity_negative (-5) (by decide)

-- HEX-STRING / BYTE LEMMAS (towards map_position)

/-- Every hex-digit value is below 16 (zero for non-hex characters). -/
theorem hexVal?_getD_lt (c : Char) : (hexVal? c).getD 0 < 16 := by
  unfold hexVal?
  split <;> decide

/-- A character is non-hex exactly when its value lookup fails. -/
theorem isHexChar_false_iff (c : Char) : isHexChar c = false ↔ hexVal? c = none := by
  unfold isHexChar
  cases hexVal? c <;> simp

/-- The digit characters emitted by the formatter are hex characters. -/
theorem isHexChar_hexDigitChar : ∀ d < 16, isHexChar (hexDigitChar d) = true := by
  decide

/-- The digit characters emitted by the formatter are lowercase hex. -/
theorem isLowerHex_hexDigitChar : ∀ d < 16, isLowerHex (hexDigitChar d) = true := by
  decide

/-- All characters produced by `natToHexAux` are hex characters. -/
theorem natToHexAux_allHex :
    ∀ fuel n c, c ∈ natToHexAux fuel n → isHexChar c = true := by
  intro fuel
  induction fuel with
  | zero => intro n c hc; simp [natToHexAux] at hc
  | succ fuel ih =>
    intro n c hc
    by_cases hn : n = 0
    · subst hn; simp [natToHexAux] at hc
    · rw [show natToHexAux (fuel + 1) n
            = natToHexAux fuel (n / 16) ++ [hexDigitChar (n % 16)] by
          simp [natToHexAux, hn]] at hc
      rcases List.mem_append.mp hc with h | h
      · exact ih (n / 16) c h
      · rw [List.mem_singleton.mp h]
        exact isHexChar_hexDigitChar (n % 16) (Nat.mod_lt n (by norm_num))

/-- All characters of a formatted quantity are hex characters. -/
theorem natToHexList_allHex (n : Nat) :
    ∀ c ∈ natToHexList n, isHexChar c = true := by
  intro c hc
  by_cases hn : n = 0
  · subst hn
    simp [natToHexList] at hc
    subst hc
    decide
  · rw [natToHexList, if_neg hn] at hc
    exact natToHexAux_allHex n n c hc

/-- Digit-count bound: `n < 16 ^ k` needs at most `k` hex digits. -/
theorem natToHexAux_length_le :
    ∀ fuel n k, n ≤ fuel → n < 16 ^ k → (natToHexAux fuel n).length ≤ k := by
  intro fuel
  induction fuel with
  | zero => intro n k _ _; simp [natToHexAux]
  | succ fuel ih =>
    intro n k h1 h2
    by_cases hn : n = 0
    · subst hn; simp [natToHexAux]
    · rw [show natToHexAux (fuel + 1) n
            = natToHexAux fuel (n / 16) ++ [hexDigitChar (n % 16)] by
          simp [natToHexAux, hn]]
      cases k with
      | zero =>
        rw [pow_zero] at h2
        omega
      | succ k =>
        have hdivle : n / 16 ≤ fuel := by
          have := Nat.div_lt_self (Nat.pos_of_ne_zero hn) (by norm_num : 1 < 16)
          omega
        have hdivlt : n / 16 < 16 ^ k := by
          rw [Nat.div_lt_iff_lt_mul (by norm_num : 0 < 16)]
          rw [pow_succ] at h2
          exact h2
        have := ih (n / 16) k hdivle hdivlt
        simp only [List.length_append, List.length_cons, List.length_nil]
        omega

/-- Digit-count bound for the full rendering. -/
theorem natToHexList_length_le (n k : Nat) (hk : 0 < k) (h : n < 16 ^ k) :
    (natToHexList n).length ≤ k := by
  by_cases hn : n = 0
  · subst hn; simp [natToHexList]; omega
  · rw [natToHexList, if_neg hn]
    exact natToHexAux_length_le n n k le_rfl h

/-- `rjust` pads up to the requested width. -/
theorem rjust_length (w : Nat) (f : Char) (s : List Char) :
    (rjust w f s).length = (w - s.length) + s.length := by
  simp [rjust]

/-- Factoring the accumulator out of the value fold. -/
theorem valHex_foldl (l : List Char) :
    ∀ acc, l.foldl (fun a c => 16 * a + (hexVal? c).getD 0) acc
      = acc * 16 ^ l.length + valHex l := by
  induction l with
  | nil => intro acc; simp [valHex]
  | cons c cs ih =>
    intro acc
    simp only [List.foldl_cons, List.length_cons]
    rw [ih (16 * acc + (hexVal? c).getD 0)]
    have h2 : valHex (c :: cs) = (hexVal? c).getD 0 * 16 ^ cs.length + valHex cs := by
      simp only [valHex, List.foldl_cons, Nat.mul_zero, Nat.zero_add]
      exact ih ((hexVal? c).getD 0)
    rw [h2, pow_succ]
    ring

/-- The value of `l` fits in `l.length` hex digits. -/
theorem valHex_lt (l : List Char) : valHex l < 16 ^ l.length := by
  induction l with
  | nil => simp [valHex]
  | cons c cs ih =>
    have hd := hexVal?_getD_lt c
    have h2 : valHex (c :: cs) = (hexVal? c).getD 0 * 16 ^ cs.length + valHex cs := by
      simp only [valHex, List.foldl_cons, Nat.mul_zero, Nat.zero_add]
      exact valHex_foldl cs ((hexVal? c).getD 0)
    rw [h2]
    calc (hexVal? c).getD 0 * 16 ^ cs.length + valHex cs
        < (hexVal? c).getD 0 * 16 ^ cs.length + 16 ^ cs.length :=
          Nat.add_lt_add_left ih _
      _ = ((hexVal? c).getD 0 + 1) * 16 ^ cs.length := by ring
      _ ≤ 16 * 16 ^ cs.length := Nat.mul_le_mul_right _ (by omega)
      _ = 16 ^ (c :: cs).length := by
          rw [List.length_cons, pow_succ]
          ring

/-- Leading zero characters do not change the value. -/
theorem valHex_replicate_zero :
    ∀ p s, valHex (List.replicate p '0' ++ s) = valHex s := by
  intro p
  induction p with
  | zero => intro s; simp
  | succ p ih =>
    intro s
    rw [List.replicate_succ, List.cons_append]
    show valHex ('0' :: (List.replicate p '0' ++ s)) = valHex s
    simp only [valHex, List.foldl_cons]
    rw [show (16 * 0 + (hexVal? '0').getD 0) = 0 by decide]
    exact ih s

/-- On an all-hex string the parser succeeds with the fold value. -/
theorem parseHexAux_eq_valHex :
    ∀ (l : List Char) acc, (∀ c ∈ l, isHexChar c = true) →
      parseHexAux acc l
        = some (l.foldl (fun a c => 16 * a + (hexVal? c).getD 0) acc) := by
  intro l
  induction l with
  | nil => intro acc _; simp [parseHexAux]
  | cons c cs ih =>
    intro acc hhex
    have hc : isHexChar c = true := hhex c (List.mem_cons_self c cs)
    obtain ⟨d, hd⟩ := Option.isSome_iff_exists.mp (by simpa [isHexChar] using hc)
    simp only [parseHexAux, hd, List.foldl_cons]
    rw [ih _ (fun x hx => hhex x (List.mem_cons_of_mem c hx))]
    simp [hd]

/-- The value of a formatted quantity is the quantity. -/
theorem valHex_natToHexList (n : Nat) : valHex (natToHexList n) = n := by
  have h1 := parseHexAux_natToHexList n
  have h2 := parseHexAux_eq_valHex (natToHexList n) 0 (natToHexList_allHex n)
  rw [h1] at h2
  have := Option.some.inj h2
  simp only [valHex]
  omega

/-- Bytes above position `k` do not affect the low `k` bytes. -/
theorem beBytes_add_mul :
    ∀ k A r, beBytes k (A * 256 ^ k + r) = beBytes k r := by
  intro k
  induction k with
  | zero => intro A r; simp [beBytes]
  | succ k ih =>
    intro A r
    simp only [beBytes]
    congr 1
    · have he : A * 256 ^ (k + 1) + r = r + 256 * A * 256 ^ k := by ring
      rw [he, Nat.add_mul_div_right _ _ (by positivity : (0:ℕ) < 256 ^ k)]
      have he2 : r / 256 ^ k + 256 * A = r / 256 ^ k + A * 256 := by ring
      rw [he2, Nat.add_mul_mod_self_right]
    · have he : A * 256 ^ (k + 1) + r = (A * 256) * 256 ^ k + r := by ring
      rw [he, ih]

/-- Two decoded characters prepend one byte to the decoded rest. -/
theorem unhexlify_cons2 (c1 c2 : Char) (t : List Char) (d1 d2 : Nat)
    (b : List Nat) (h1 : hexVal? c1 = some d1) (h2 : hexVal? c2 = some d2)
    (h3 : unhexlify t = some b) :
    unhexlify (c1 :: c2 :: t) = some ((16 * d1 + d2) :: b) := by
  show (match hexVal? c1, hexVal? c2, unhexlify t with
        | some h, some l, some bs => some ((16 * h + l) :: bs)
        | _, _, _ => none) = some ((16 * d1 + d2) :: b)
  rw [h1, h2, h3]

/-- `unhexlify` of an all-hex string of length `2 * k` yields the `k`
big-endian bytes of its value. -/
theorem unhexlify_full :
    ∀ k t, t.length = 2 * k → (∀ c ∈ t, isHexChar c = true) →
      unhexlify t = some (beBytes k (valHex t)) := by
  intro k
  induction k with
  | zero =>
    intro t ht _
    have : t = [] := List.eq_nil_of_length_eq_zero (by omega)
    subst this
    simp [unhexlify, beBytes, valHex]
  | succ k ih =>
    intro t ht hhex
    cases t with
    | nil => simp at ht
    | cons c1 t1 =>
      cases t1 with
      | nil => simp at ht; omega
      | cons c2 rest =>
        have hrl : rest.length = 2 * k := by
          simp only [List.length_cons] at ht
          omega
        have hc1 : isHexChar c1 = true := hhex c1 (by simp)
        have hc2 : isHexChar c2 = true := hhex c2 (by simp)
        obtain ⟨d1, hd1⟩ := Option.isSome_iff_exists.mp (by simpa [isHexChar] using hc1)
        obtain ⟨d2, hd2⟩ := Option.isSome_iff_exists.mp (by simpa [isHexChar] using hc2)
        have hrest : unhexlify rest = some (beBytes k (valHex rest)) :=
          ih rest hrl (fun x hx => hhex x (by simp [hx]))
        have hlhs : unhexlify (c1 :: c2 :: rest)
            = some ((16 * d1 + d2) :: beBytes k (valHex rest)) := by
          simp only [unhexlify, hd1, hd2, hrest]
        rw [hlhs]
        have hd1lt : d1 < 16 := by
          have := hexVal?_getD_lt c1
          rw [hd1] at this
          simpa using this
        have hd2lt : d2 < 16 := by
          have := hexVal?_getD_lt c2
          rw [hd2] at this
          simpa using this
        have hv : valHex (c1 :: c2 :: rest)
            = (16 * d1 + d2) * 256 ^ k + valHex rest := by
          simp only [valHex, List.foldl_cons, Nat.mul_zero, Nat.zero_add, hd1, hd2,
            Option.getD_some]
          rw [valHex_foldl rest (16 * d1 + d2), hrl,
            show (16:ℕ) ^ (2 * k) = 256 ^ k by rw [pow_mul]; norm_num]
          rfl
        rw [hv]
        have hrval : valHex rest < 256 ^ k := by
          have := valHex_lt rest
          rw [hrl] at this
          rwa [show (16:ℕ) ^ (2 * k) = 256 ^ k by rw [pow_mul]; norm_num] at this
        congr 1
        simp only [beBytes]
        congr 1
        · symm
          rw [show (16 * d1 + d2) * 256 ^ k + valHex rest
                = valHex rest + (16 * d1 + d2) * 256 ^ k by ring]
          rw [Nat.add_mul_div_right _ _ (by positivity : (0:ℕ) < 256 ^ k)]
          rw [Nat.div_eq_of_lt hrval]
          rw [Nat.zero_add, Nat.mod_eq_of_lt (by omega)]
        · exact (beBytes_add_mul k (16 * d1 + d2) (valHex rest)).symm

/-- `unhexlify` after `rjust`-padding an all-hex string to `2 * k`
characters yields the `k` big-endian bytes of its value. -/
theorem unhexlify_rjust (k : Nat) (s : List Char) (hlen : s.length ≤ 2 * k)
    (hhex : ∀ c ∈ s, isHexChar c = true) :
    unhexlify (rjust (2 * k) '0' s) = some (beBytes k (valHex s)) := by
  have hfull : (rjust (2 * k) '0' s).length = 2 * k := by
    rw [rjust_length]; omega
  have hallhex : ∀ c ∈ rjust (2 * k) '0' s, isHexChar c = true := by
    intro c hc
    unfold rjust at hc
    rcases List.mem_append.mp hc with h | h
    · rw [List.eq_of_mem_replicate h]; decide
    · exact hhex c h
  rw [unhexlify_full k _ hfull hallhex]
  congr 2
  unfold rjust
  exact valHex_replicate_zero _ s

/-- `unhexlify` distributes over append when both halves decode. -/
theorem unhexlify_append_some :
    ∀ (n : Nat) (l1 : List Char), l1.length ≤ n → ∀ l2 b1 b2,
      unhexlify l1 = some b1 → unhexlify l2 = some b2 →
      unhexlify (l1 ++ l2) = some (b1 ++ b2) := by
  intro n
  induction n with
  | zero =>
    intro l1 h l2 b1 b2 h1 h2
    have : l1 = [] := List.eq_nil_of_length_eq_zero (by omega)
    subst this
    simp only [unhexlify] at h1
    cases h1
    simpa using h2
  | succ n ih =>
    intro l1 h l2 b1 b2 h1 h2
    cases l1 with
    | nil =>
      simp only [unhexlify] at h1
      cases h1
      simpa using h2
    | cons c1 t1 =>
      cases t1 with
      | nil => simp [unhexlify] at h1
      | cons c2 rest =>
        cases hd1 : hexVal? c1 with
        | none => simp [unhexlify, hd1] at h1
        | some d1 =>
          cases hd2 : hexVal? c2 with
          | none => simp [unhexlify, hd1, hd2] at h1
          | some d2 =>
            cases hrest : unhexlify rest with
            | none => simp [unhexlify, hd1, hd2, hrest] at h1
            | some br =>
              have hb1 : b1 = (16 * d1 + d2) :: br := by
                simp only [unhexlify, hd1, hd2, hrest] at h1
                exact (Option.some.inj h1).symm
              have hlen : rest.length ≤ n := by
                simp only [List.length_cons] at h
                omega
              have hcat := ih rest hlen l2 br b2 hrest h2
              rw [List.cons_append, List.cons_append,
                unhexlify_cons2 c1 c2 (rest ++ l2) d1 d2 (br ++ b2) hd1 hd2 hcat,
                hb1]
              simp

/-- `unhexlify` fails exactly on odd length or a non-hex character. -/
theorem unhexlify_eq_none_iff :
    ∀ (n : Nat) (l : List Char), l.length ≤ n →
      (unhexlify l = none ↔
        Odd l.length ∨ ∃ c ∈ l, isHexChar c = false) := by
  intro n
  induction n with
  | zero =>
    intro l h
    have : l = [] := List.eq_nil_of_length_eq_zero (by omega)
    subst this
    simp [unhexlify]
  | succ n ih =>
    intro l h
    cases l with
    | nil => simp [unhexlify]
    | cons c1 t1 =>
      cases t1 with
      | nil =>
        constructor
        · intro _
          refine Or.inl ?_
          rw [List.length_cons, List.length_nil]
          exact ⟨0, by norm_num⟩
        · intro _
          rfl
      | cons c2 rest =>
        have hlen : rest.length ≤ n := by
          simp only [List.length_cons] at h
          omega
        have hrec := ih rest hlen
        have hodd : Odd (c1 :: c2 :: rest).length ↔ Odd rest.length := by
          simp only [List.length_cons, Nat.odd_iff]
          omega
        cases hd1 : hexVal? c1 with
        | none =>
          constructor
          · intro _
            exact Or.inr ⟨c1, by simp, (isHexChar_false_iff c1).mpr hd1⟩
          · intro _
            simp [unhexlify, hd1]
        | some d1 =>
          cases hd2 : hexVal? c2 with
          | none =>
            constructor
            · intro _
              exact Or.inr ⟨c2, by simp, (isHexChar_false_iff c2).mpr hd2⟩
            · intro _
              simp [unhexlify, hd1, hd2]
          | some d2 =>
            cases hrest : unhexlify rest with
            | none =>
              constructor
              · intro _
                rcases hrec.mp hrest with hodd2 | ⟨c, hc, hbad⟩
                · exact Or.inl (hodd.mpr hodd2)
                · exact Or.inr ⟨c, by simp [hc], hbad⟩
              · intro _
                simp [unhexlify, hd1, hd2, hrest]
            | some br =>
              have hlhs : unhexlify (c1 :: c2 :: rest) = some ((16 * d1 + d2) :: br) := by
                simp only [unhexlify, hd1, hd2, hrest]
              rw [hlhs]
              simp only [reduceCtorEq, false_iff]
              intro hcon
              rcases hcon with hodd2 | ⟨c, hc, hbad⟩
              · have : Odd rest.length := hodd.mp hodd2
                have : unhexlify rest = none := hrec.mpr (Or.inl this)
                rw [hrest] at this
                cases this
              · rcases List.mem_cons.mp hc with rfl | hc2
                · rw [(isHexChar_false_iff c).mp hbad] at hd1
                  cases hd1
                · rcases List.mem_cons.mp hc2 with rfl | hc3
                  · rw [(isHexChar_false_iff c).mp hbad] at hd2
                    cases hd2
                  · have : unhexlify rest = none := hrec.mpr (Or.inr ⟨c, hc3, hbad⟩)
                    rw [hrest] at this
                    cases this

/-- The hex digest has two characters per byte. -/
theorem bytesToHex_length (bs : List Nat) :
    (bytesToHex bs).length = 2 * bs.length := by
  induction bs with
  | nil => simp [bytesToHex]
  | cons b bs ih =>
    have hsplit : bytesToHex (b :: bs) = byteToHex b ++ bytesToHex bs := by
      simp [bytesToHex]
    rw [hsplit, List.length_append, ih,
      show (byteToHex b).length = 2 from rfl, List.length_cons]
    omega

/-- Every character of the hex digest is lowercase hex. -/
theorem bytesToHex_lowerHex (bs : List Nat) :
    ∀ c ∈ bytesToHex bs, isLowerHex c = true := by
  induction bs with
  | nil => simp [bytesToHex]
  | cons b bs ih =>
    intro c hc
    simp only [bytesToHex, List.map_cons, List.flatten_cons] at hc
    rcases List.mem_append.mp hc with h | h
    · simp only [byteToHex, List.mem_cons, List.mem_singleton] at h
      rcases h with rfl | h
      · exact isLowerHex_hexDigitChar _ (Nat.mod_lt _ (by norm_num))
      · rcases h with rfl | h
        · exact isLowerHex_hexDigitChar _ (Nat.mod_lt _ (by norm_num))
        · simp at h
    · exact ih c h

/-- Keccak-256 always squeezes exactly 32 bytes. -/
theorem keccak256_length (msg : List Nat) : (keccak256 msg).length = 32 := by
  simp [keccak256]

/-- C3 (amended): for positions below `2^256`, `map_position` fails with a
`ValueError` exactly when the key, after `0x`-prefix removal, contains a
non-hexadecimal character, or has odd length exceeding 64 characters;
valid even-length hex keys longer than 64 characters are accepted. -/
theorem C3_map_position_error_iff (key : String) (position : Nat)
    (hpos : position < 16 ^ 64) :
    map_position key position
        = .error (.valueError "non-hexadecimal digit or odd-length string") ↔
      ((∃ c ∈ ( remove_hex_prefix key).toList, isHexChar c = false) ∨
        (64 < ( remove_hex_prefix key).toList.length ∧
          Odd ( remove_hex_prefix key).toList.length)) := by
  have hL : (natToHexList position).length ≤ 64 :=
    natToHexList_length_le position 64 (by norm_num) hpos
  have hplen : (rjust 64 '0' (natToHexList position)).length = 64 := by
    rw [rjust_length]; omega
  have hstep : (map_position key position
      = .error (.valueError "non-hexadecimal digit or odd-length string")) ↔
      unhexlify (rjust 64 '0' ( remove_hex_prefix key).toList
        ++ rjust 64 '0' (natToHexList position)) = none := by
    unfold map_position
    cases h : unhexlify (rjust 64 '0' ( remove_hex_prefix key).toList
        ++ rjust 64 '0' (natToHexList position)) with
    | none => simp
    | some bytes => simp
  rw [hstep,
    unhexlify_eq_none_iff ((rjust 64 '0' ( remove_hex_prefix key).toList
        ++ rjust 64 '0' (natToHexList position)).length) _ le_rfl]
  constructor
  · rintro (hodd | ⟨c, hc, hbad⟩)
    · refine Or.inr ?_
      rw [List.length_append, hplen, rjust_length] at hodd
      rw [Nat.odd_iff] at hodd
      rw [Nat.odd_iff]
      omega
    · refine Or.inl ?_
      rcases List.mem_append.mp hc with h1 | h2
      · unfold rjust at h1
        rcases List.mem_append.mp h1 with h3 | h4
        · rw [List.eq_of_mem_replicate h3] at hbad
          exact absurd hbad (by decide)
        · exact ⟨c, h4, hbad⟩
      · unfold rjust at h2
        rcases List.mem_append.mp h2 with h3 | h4
        · rw [List.eq_of_mem_replicate h3] at hbad
          exact absurd hbad (by decide)
        · rw [natToHexList_allHex position c h4] at hbad
          cases hbad
  · rintro (⟨c, hc, hbad⟩ | ⟨hgt, hodd⟩)
    · refine Or.inr ⟨c, ?_, hbad⟩
      refine List.mem_append.mpr (Or.inl ?_)
      unfold rjust
      exact List.mem_append.mpr (Or.inr hc)
    · refine Or.inl ?_
      rw [List.length_append, hplen, rjust_length]
      rw [Nat.odd_iff] at hodd ⊢
      omega

/-- Witness for C3 at a concrete non-hex key. -/
theorem C3_map_position_error_iff_witness :
    map_position "0xzz" 0
      = .error (.valueError "non-hexadecimal digit or odd-length string") :=
  (C3_map_position_error_iff "0xzz" 0 (by positivity)).mpr
    (Or.inl ⟨'z', by decide, by decide⟩)

set_option maxRecDepth 1000000 in
/-- Counterexample to C3 as stated: a valid-hex key of 66 characters —
which exceeds 64 — is accepted by `map_position`, which returns a hash
instead of failing. -/
theorem C3_counterexample_long_key_accepted :
    64 < ( remove_hex_prefix
      "000000000000000000000000000000000000000000000000000000000000000000").toList.length ∧
    (∀ c ∈ ( remove_hex_prefix
      "000000000000000000000000000000000000000000000000000000000000000000").toList,
      isHexChar c = true) ∧
    (map_position
      "000000000000000000000000000000000000000000000000000000000000000000" 0
      ).isOk = true :=
  ⟨by decide, by decide, by rfl⟩

set_option maxRecDepth 1000000 in
/-- C4 (amended): the literal fixture holds, and for every key that is
valid hex of at most 64 characters after prefix removal and every slot
below `2^256`, `map_position` returns `0x` followed by exactly 64
lowercase hex characters: the Keccak-256 digest of the key's value
left-padded to 32 bytes concatenated with the slot's 32-byte big-endian
value. -/
theorem C4_map_position_keccak (key : String) (slot : Nat)
    (hhex : ∀ c ∈ ( remove_hex_prefix key).toList, isHexChar c = true)
    (hlen : ( remove_hex_prefix key).toList.length ≤ 64)
    (hslot : slot < 2 ^ 256) :
    map_position key slot = .ok (computeStoragePosition_spec key slot) ∧
    (computeStoragePosition_spec key slot).toList.length = 66 ∧
    (computeStoragePosition_spec key slot).toList.take 2 = ['0', 'x'] ∧
    (∀ c ∈ (computeStoragePosition_spec key slot).toList.drop 2,
      isLowerHex c = true) ∧
    map_position "0xc8d6ce812a5824aa257ec33257bfd97dc9b78968" 0 =
      .ok "0x5e2e105ad8200f9b677b33e64aa53efd5c6c72828759504366e650c535d42c0c" := by
  have hslot16 : slot < 16 ^ 64 := by
    rw [show (16:ℕ) ^ 64 = 2 ^ 256 by norm_num]
    exact hslot
  have hkey64 : unhexlify (rjust 64 '0' ( remove_hex_prefix key).toList)
      = some (beBytes 32 (valHex ( remove_hex_prefix key).toList)) := by
    have := unhexlify_rjust 32 ( remove_hex_prefix key).toList (by omega) hhex
    simpa using this
  have hplen : (natToHexList slot).length ≤ 64 :=
    natToHexList_length_le slot 64 (by norm_num) hslot16
  have hpos64 : unhexlify (rjust 64 '0' (natToHexList slot))
      = some (beBytes 32 slot) := by
    have := unhexlify_rjust 32 (natToHexList slot) (by omega)
      (natToHexList_allHex slot)
    rw [valHex_natToHexList] at this
    simpa using this
  have hcat : unhexlify (rjust 64 '0' ( remove_hex_prefix key).toList
      ++ rjust 64 '0' (natToHexList slot))
      = some (beBytes 32 (valHex ( remove_hex_prefix key).toList)
          ++ beBytes 32 slot) :=
    unhexlify_append_some (rjust 64 '0' ( remove_hex_prefix key).toList).length
      _ le_rfl _ _ _ hkey64 hpos64
  have hmain : map_position key slot = .ok (computeStoragePosition_spec key slot) := by
    unfold map_position computeStoragePosition_spec
    rw [hcat]
  have htl : (computeStoragePosition_spec key slot).toList
      = '0' :: 'x' :: bytesToHex (keccak256
          (beBytes 32 (valHex ( remove_hex_prefix key).toList)
            ++ beBytes 32 slot)) := by
    unfold computeStoragePosition_spec
    simp [List.asString, String.toList]
  refine ⟨hmain, ?_, ?_, ?_, by rfl⟩
  · rw [htl]
    simp only [List.length_cons, bytesToHex_length, keccak256_length]
  · rw [htl]
    rfl
  · intro c hc
    rw [htl] at hc
    simp only [List.drop_succ_cons, List.drop_zero] at hc
    exact bytesToHex_lowerHex _ c hc

set_option maxRecDepth 1000000 in
/-- Witness for C4 at the spec's own fixture input. -/
theorem C4_map_position_keccak_witness :
    map_position "0xc8d6ce812a5824aa257ec33257bfd97dc9b78968" 0
      = .ok (computeStoragePosition_spec
          "0xc8d6ce812a5824aa257ec33257bfd97dc9b78968" 0) ∧
    (computeStoragePosition_spec
      "0xc8d6ce812a5824aa257ec33257bfd97dc9b78968" 0).toList.length = 66 :=
  ⟨(C4_map_position_keccak "0xc8d6ce812a5824aa257ec33257bfd97dc9b78968" 0
      (by decide) (by decide) (by positivity)).1,
   (C4_map_position_keccak "0xc8d6ce812a5824aa257ec33257bfd97dc9b78968" 0
      (by decide) (by decide) (by positivity)).2.1⟩

set_option maxRecDepth 1000000 in
/-- Counterexample to C4 as stated: at slot `2^256` — a non-negative
integer whose hex form no longer fits 64 characters — `map_position` on
the fixture key raises instead of returning a hash. -/
theorem C4_counterexample_huge_slot_error :
    (∀ c ∈ ( remove_hex_prefix
        "0xc8d6ce812a5824aa257ec33257bfd97dc9b78968").toList,
      isHexChar c = true) ∧
    ( remove_hex_prefix
        "0xc8d6ce812a5824aa257ec33257bfd97dc9b78968").toList.length ≤ 64 ∧
    map_position "0xc8d6ce812a5824aa257ec33257bfd97dc9b78968" (2 ^ 256)
      = .error (.valueError "non-hexadecimal digit or odd-length string") :=
  ⟨by decide, by decide, by rfl⟩

/-- Witness for C9 at a concrete address. -/
theorem C9_personal_lock_account_name_error_witness :
    personal_lock_account_impl "0xc8d6ce812a5824aa257ec33257bfd97dc9b78968"
      = .error (.nameError "password") :=
  (C9_personal_lock_account_name_error
    "0xc8d6ce812a5824aa257ec33257bfd97dc9b78968").1
